import Mathlib

/-!
Shallow embedding of the request-handling core of `SymProxyCloud-rs`
(`src/main.rs`), a symbol-file reverse proxy.  The embedding covers:

* the configuration data model (`Config`, `ConfigServer`, `ConfigCache`);
* the candidate-list construction at the top of the `symbol` handler
  (lines 91-108), which prepends a synthesized Azure DevOps cache-origin
  server when a cache is configured;
* the fallback loop of the `symbol` handler (lines 110-227): URL join,
  optional token acquisition, `send`, the 2xx test, the
  `domain().unwrap().ends_with("artifacts.dev.azure.com")` cache-eligibility
  test, and the choice between tee-and-publish and direct passthrough;
* the spawned tee-and-publish task (lines 164-213): staging-directory and
  file setup, the write-then-forward chunk loop (lines 184-189), the
  `symbol.exe` invocation, and the staging-directory removal;
* the startup sequence of `main` (lines 252-281): token prefetch, the
  loopback/authentication safety check, and the bind.

Effectful operations (network sends, token acquisition, file I/O, channel
sends, process spawning) are modelled by explicit environment records that
say, for each operation occurrence, whether it succeeds and with what
result; the embedded functions are then pure functions of the
configuration and the environment, mirroring the Rust control flow
branch by branch.
-/

namespace SymProxy

/-- A parsed URL, reduced to the two attributes the handler consumes: its
textual form and `Url::domain()`, which is `none` when the host is absent
or is an IP-address literal. -/
structure Url where
  full : String
  domain : Option String
deriving Repr, DecidableEq

/-- `ConfigCache` from `main.rs` lines 45-51: path to `symbol.exe` and the
Azure DevOps organization. -/
structure ConfigCache where
  symbol_path : String
  organization : String
deriving Repr, DecidableEq

/-- `ConfigServer` from `main.rs` lines 53-59: one upstream server, with an
optional authentication scope. -/
structure ConfigServer where
  url : Url
  scope : Option String
deriving Repr, DecidableEq

/-- A socket address, reduced to what the startup check consumes: the IPv4
octets and the port. -/
structure SocketAddr where
  ip : Nat × Nat × Nat × Nat
  port : Nat
deriving Repr, DecidableEq

/-- `IpAddr::is_loopback` for IPv4: the address is in `127.0.0.0/8`. -/
def SocketAddr.ipIsLoopback (a : SocketAddr) : Bool :=
  a.ip.1 == 127

/-- `Config` from `main.rs` lines 61-67. -/
structure Config where
  listen_address : Option SocketAddr
  i_am_not_an_idiot : Bool
  cache : Option ConfigCache
  servers : List ConfigServer
deriving Repr

/-- The fixed scope attached to the synthesized cache-origin server
(`main.rs` line 102). -/
def wellKnownScope : String := "499b84ac-1321-427f-aa17-267ca6975798/.default"

/-- `str::ends_with` (the test applied to `Url::domain()` on `main.rs`
line 151), computed on the character lists of the two strings. -/
def strEndsWith (s suffix : String) : Bool :=
  List.isSuffixOf suffix.data s.data

/-- The domain-suffix string the handler compares against
(`main.rs` line 151). -/
def cacheSuffix : String := "artifacts.dev.azure.com"

/-- The URL of the synthesized cache-origin server (`main.rs` lines 94-101):
`https://artifacts.dev.azure.com/{organization}/_apis/symbol/symsrv/`.  Its
domain is the fixed Azure DevOps artifacts host. -/
def mirrorUrl (org : String) : Url :=
  { full := "https://artifacts.dev.azure.com/" ++ org ++ "/_apis/symbol/symsrv/",
    domain := some "artifacts.dev.azure.com" }

/-- The synthesized cache-origin `ConfigServer` (`main.rs` lines 93-103). -/
def mirrorServer (org : String) : ConfigServer :=
  { url := mirrorUrl org, scope := some wellKnownScope }

/-- Candidate-list construction at the top of the `symbol` handler
(`main.rs` lines 91-108): when a cache is configured the synthesized
cache-origin server is prepended to the configured servers; otherwise the
configured servers are used as they are. -/
def resolveServers (config : Config) : List ConfigServer :=
  match config.cache with
  | some mirror => mirrorServer mirror.organization :: config.servers
  | none => config.servers

/-- `StatusCode::is_success` from the `http` crate: `200 <= status < 300`. -/
def isSuccess (status : Nat) : Bool :=
  200 ≤ status && status < 300

/-- Result of `req_builder.send()` for one attempt: a transport failure, or a
response with a status code and an optional declared content length. -/
inductive SendResult where
  | failed
  | ok (status : Nat) (contentLength : Option Nat)
deriving Repr, DecidableEq

/-- Environment for one run of the `symbol` handler: per attempt index,
whether `Url::join` succeeds; per scope, whether `get_token` succeeds; per
attempt index, the result of `send`. -/
structure FetchEnv where
  joinOk : Nat → Bool
  tokenOk : String → Bool
  send : Nat → SendResult

/-- How the winning response body is produced (`main.rs` lines 147-221):
either routed through the tee-and-publish channel or passed straight
through from the upstream. -/
inductive StreamMode where
  | tee
  | passthrough
deriving Repr, DecidableEq

/-- Outcome of the `symbol` handler.  `response` carries the index of the
winning candidate, the status code forwarded to the client, and the body
routing mode; `internalError` carries the `context` message of the failed
step (rendered as HTTP 500 by `impl IntoResponse for Error`, lines 34-43);
`notFound` is the fallthrough 404 (lines 229-232); `panicked` models the
`unwrap` of `None` at `server.url.domain().unwrap()` (line 150). -/
inductive HandlerOutcome where
  | response (winner : Nat) (status : Nat) (mode : StreamMode)
  | internalError (msg : String)
  | notFound
  | panicked
deriving Repr, DecidableEq

/-- The `for server in servers` loop of the `symbol` handler
(`main.rs` lines 110-232), indexing candidates from `i`.  Returns the
handler outcome together with the list of candidate indices at which an
outbound request was actually issued (`send` was reached).  Mirrors the
source order: join the URL (line 111-114), acquire a token if a scope is
set (lines 121-132), send (line 134), skip to the next candidate on a
non-2xx status (lines 138-140), then decide the body routing from the URL
domain and the cache configuration (lines 147-221), requiring a declared
content length on the tee path (lines 154-156). -/
def symbolLoop (cfg : Config) (env : FetchEnv) :
    List ConfigServer → Nat → HandlerOutcome × List Nat
  | [], _ => (.notFound, [])
  | server :: rest, i =>
    if env.joinOk i = false then
      (.internalError "failed to build request url", [])
    else if (match server.scope with
             | some sc => !(env.tokenOk sc)
             | none => false) then
      (.internalError "failed to get token", [])
    else
      match env.send i with
      | .failed => (.internalError "failed to send request", [i])
      | .ok status cl =>
        if !(isSuccess status) then
          let r := symbolLoop cfg env rest (i + 1)
          (r.1, i :: r.2)
        else
          match server.url.domain with
          | none => (.panicked, [i])
          | some d =>
            if !(strEndsWith d cacheSuffix) then
              match cfg.cache with
              | some _ =>
                match cl with
                | none => (.internalError "failed to get content length", [i])
                | some _ => (.response i status .tee, [i])
              | none => (.response i status .passthrough, [i])
            else
              (.response i status .passthrough, [i])

/-- The whole `symbol` handler: the loop over the resolved candidate list,
starting at index 0. -/
def symbol (cfg : Config) (env : FetchEnv) : HandlerOutcome × List Nat :=
  symbolLoop cfg env (resolveServers cfg) 0

/-- Handler outcome of `symbol`. -/
def symbolOutcome (cfg : Config) (env : FetchEnv) : HandlerOutcome :=
  (symbol cfg env).1

/-- Candidate indices at which `symbol` issued an outbound request. -/
def symbolSends (cfg : Config) (env : FetchEnv) : List Nat :=
  (symbol cfg env).2

/-- The HTTP status the client observes for a handler outcome: the winner's
status on success, 500 for an internal error (lines 34-43), 404 when every
candidate was exhausted (lines 229-232), and nothing on a panic. -/
def httpStatus : HandlerOutcome → Option Nat
  | .response _ s _ => some s
  | .internalError _ => some 500
  | .notFound => some 404
  | .panicked => none

/-- Environment for one run of the spawned tee-and-publish task
(`main.rs` lines 164-213).  `byteCount` is the declared content length
passed to `set_len`; `chunks` is the upstream body stream, each item a
successfully read chunk of bytes or a read error; `writeOk k` / `sendOk k`
say whether the `k`-th `write_all` / `tx.send` succeeds (`tx.send` fails
once the receiving side of the channel has been dropped); `invoke` is
`none` when `symbol.exe` cannot be spawned and otherwise carries its exit
code; `removeOk` says whether `remove_dir_all` succeeds. -/
structure TaskEnv where
  byteCount : Nat
  chunks : List (Except Unit (List Nat))
  createDirOk : Bool
  openOk : Bool
  setLenOk : Bool
  writeOk : Nat → Bool
  sendOk : Nat → Bool
  invoke : Option Int
  removeOk : Bool

/-- The `while let Some(chunk) = stream.next()` loop of the tee task
(`main.rs` lines 184-189), processing the `k`-th chunk with the bytes
written to the staging file so far in `w` and the bytes forwarded into the
hand-off channel so far in `s`.  Each iteration reads a chunk (aborting on
a read error), appends it to the file with `write_all`, then forwards the
same chunk with `tx.send`; a failed write or send aborts the loop there.
Returns the final file contents, the final forwarded contents, and the
`context` message of the step that failed, if any. -/
def teeLoop (writeOk sendOk : Nat → Bool) (w s : List Nat) :
    List (Except Unit (List Nat)) → Nat → List Nat × List Nat × Option String
  | [], _ => (w, s, none)
  | .error _ :: _, _ => (w, s, some "failed to read chunk")
  | .ok c :: rest, k =>
    if writeOk k = false then (w, s, some "failed to write chunk")
    else if sendOk k = false then (w ++ c, s, some "failed to send chunk")
    else teeLoop writeOk sendOk (w ++ c) (s ++ c) rest (k + 1)

/-- The same chunk loop (`main.rs` lines 184-189), recording the
`(file contents, forwarded contents)` state after every individual
`write_all` and after every individual `tx.send` — the trace of
intermediate states a concurrent observer of the staging file and the
hand-off channel could see while the loop runs. -/
def teeEvents (writeOk sendOk : Nat → Bool) (w s : List Nat) :
    List (Except Unit (List Nat)) → Nat → List (List Nat × List Nat)
  | [], _ => []
  | .error _ :: _, _ => []
  | .ok c :: rest, k =>
    if writeOk k = false then []
    else if sendOk k = false then [(w ++ c, s)]
    else (w ++ c, s) :: (w ++ c, s ++ c) ::
      teeEvents writeOk sendOk (w ++ c) (s ++ c) rest (k + 1)

instance {ε α : Type} [DecidableEq ε] [DecidableEq α] : DecidableEq (Except ε α) :=
  fun a b =>
    match a, b with
    | .error x, .error y =>
      if h : x = y then isTrue (by rw [h])
      else isFalse (fun hc => h (Except.error.inj hc))
    | .error _, .ok _ => isFalse (fun hc => Except.noConfusion hc)
    | .ok _, .error _ => isFalse (fun hc => Except.noConfusion hc)
    | .ok x, .ok y =>
      if h : x = y then isTrue (by rw [h])
      else isFalse (fun hc => h (Except.ok.inj hc))

/-- Observable outcome of one tee-and-publish task: the bytes written to
the staging file, the bytes forwarded to the client, whether the
`symbol.exe` invocation (the `Command::status` call, `main.rs` lines
195-206) was reached, whether the `remove_dir_all` call (lines 208-210)
was reached, whether the staging directory was actually removed, and the
task's `Result`. -/
structure TaskTrace where
  written : List Nat
  sent : List Nat
  publisherInvoked : Bool
  removeAttempted : Bool
  dirRemoved : Bool
  result : Except String Unit
deriving Repr, DecidableEq

/-- Tail of the tee-and-publish task after the chunk loop, applied to the
loop's result `(written, sent, error)`: a loop error aborts the task
(`main.rs` line 185-188 `?`); otherwise `symbol.exe` is invoked (lines
195-206) and the staging directory removed (lines 208-210).  A non-zero
exit code of `symbol.exe` is not a failure (`status()` returns `Ok` for
it), but a spawn failure aborts through `?` before the removal. -/
def teeFinish (env : TaskEnv) : List Nat × List Nat × Option String → TaskTrace
  | (w, s, some e) => ⟨w, s, false, false, false, .error e⟩
  | (w, s, none) =>
    match env.invoke with
    | none => ⟨w, s, true, false, false, .error "failed to run symbol.exe"⟩
    | some _ =>
      if env.removeOk = false then
        ⟨w, s, true, true, false, .error "failed to delete temporary directory"⟩
      else
        ⟨w, s, true, true, true, .ok ()⟩

/-- The spawned tee-and-publish task (`main.rs` lines 164-213): create the
staging directory (lines 167-170), open the staging file (lines 174-179),
pre-size it to the declared content length (lines 180-182), run the chunk
loop (lines 184-189), then finish with the publish-and-cleanup tail.
Every failed step aborts the task through `?` with its `context`
message. -/
def teeTask (env : TaskEnv) : TaskTrace :=
  if env.createDirOk = false then
    ⟨[], [], false, false, false, .error "failed to create temp directory"⟩
  else if env.openOk = false then
    ⟨[], [], false, false, false, .error "failed to create temporary file"⟩
  else if env.setLenOk = false then
    ⟨[], [], false, false, false, .error "failed to resize temporary file"⟩
  else
    teeFinish env (teeLoop env.writeOk env.sendOk [] [] env.chunks 0)

/-- Outcome of the startup sequence of `main` (`main.rs` lines 252-281),
after the configuration has been parsed and the credential created:
`tokenError` when the startup token prefetch fails for some configured
scope (lines 261-268), `refusedInsecure` when the
authentication/loopback safety check bails (lines 274-277), and
`bound addr` when the process proceeds to bind `addr` (lines 279-281). -/
inductive StartupResult where
  | tokenError
  | refusedInsecure
  | bound (addr : SocketAddr)
deriving Repr, DecidableEq

/-- The default listen address `127.0.0.1:5000` (`main.rs` line 272). -/
def defaultListen : SocketAddr := ⟨(127, 0, 0, 1), 5000⟩

/-- The startup sequence of `main` (`main.rs` lines 252-281): prefetch a
token for every configured server scope (failing fast on the first
failure), resolve the listen address, then refuse to start when some
configured server has an authentication scope, the address is not
loopback, and `i_am_not_an_idiot` is false; otherwise bind.  Note the
`has_auth` test on line 274 ranges over `config.servers` only. -/
def startup (cfg : Config) (tokenOk : String → Bool) : StartupResult :=
  if cfg.servers.any (fun s =>
      match s.scope with
      | some sc => !(tokenOk sc)
      | none => false) then
    .tokenError
  else
    let addr := cfg.listen_address.getD defaultListen
    let has_auth := cfg.servers.any (fun s => s.scope.isSome)
    if has_auth && !cfg.i_am_not_an_idiot && !addr.ipIsLoopback then
      .refusedInsecure
    else
      .bound addr

/-! ## Helper lemmas -/

/-- Invariant of the tee chunk loop: starting from equal file and channel
contents, every state it records has the forwarded bytes a prefix of the
written bytes. -/
lemma teeEvents_prefix_aux (writeOk sendOk : Nat → Bool) :
    ∀ (chunks : List (Except Unit (List Nat))) (w : List Nat) (k : Nat)
      (p : List Nat × List Nat),
      p ∈ teeEvents writeOk sendOk w w chunks k → p.2 <+: p.1 := by
  intro chunks
  induction chunks with
  | nil =>
    intro w k p hp
    simp [teeEvents] at hp
  | cons c rest ih =>
    intro w k p hp
    match c with
    | .error e =>
      simp [teeEvents] at hp
    | .ok b =>
      rw [teeEvents] at hp
      by_cases hw : writeOk k = false
      · simp [hw] at hp
      · by_cases hs : sendOk k = false
        · simp [hw, hs] at hp
          rw [hp]
          exact List.prefix_append w b
        · simp [hw, hs] at hp
          rcases hp with h1 | h2 | h3
          · rw [h1]
            exact List.prefix_append w b
          · rw [h2]
          · exact ih (w ++ b) (k + 1) p h3

/-- Facts holding whenever the fallback loop, started at index `i`, ends in
a winning response at index `w`: every issued request targets an index at
most `w`, the winner's `send` returned the forwarded 2xx status, and every
earlier issued request returned a non-2xx status. -/
lemma symbolLoop_response_facts (cfg : Config) (env : FetchEnv) :
    ∀ (servers : List ConfigServer) (i w status : Nat) (mode : StreamMode)
      (out : HandlerOutcome) (sends : List Nat),
      symbolLoop cfg env servers i = (out, sends) →
      out = .response w status mode →
      i ≤ w ∧ (∀ j ∈ sends, j ≤ w) ∧
      (∃ cl, env.send w = .ok status cl ∧ isSuccess status = true) ∧
      (∀ j ∈ sends, j < w → ∃ s cl, env.send j = .ok s cl ∧ isSuccess s = false) := by
  intro servers
  induction servers with
  | nil =>
    intro i w status mode out sends hpair hout
    rw [symbolLoop] at hpair
    cases hpair
    exact HandlerOutcome.noConfusion hout
  | cons server rest ih =>
    intro i w status mode out sends hpair hout
    rw [symbolLoop] at hpair
    by_cases hj : env.joinOk i = false
    · rw [if_pos hj] at hpair
      cases hpair
      exact HandlerOutcome.noConfusion hout
    · rw [if_neg hj] at hpair
      by_cases ht : (match server.scope with
                     | some sc => !(env.tokenOk sc)
                     | none => false) = true
      · rw [if_pos ht] at hpair
        cases hpair
        exact HandlerOutcome.noConfusion hout
      · rw [if_neg ht] at hpair
        cases hsend : env.send i with
        | failed =>
          simp only [hsend] at hpair
          cases hpair
          exact HandlerOutcome.noConfusion hout
        | ok status' cl =>
          simp only [hsend] at hpair
          by_cases hsucc : isSuccess status' = true
          · simp only [hsucc, Bool.not_true, Bool.false_eq_true, if_false] at hpair
            cases hdom : server.url.domain with
            | none =>
              simp only [hdom] at hpair
              cases hpair
              exact HandlerOutcome.noConfusion hout
            | some d =>
              simp only [hdom] at hpair
              have key : ∀ m : StreamMode,
                  (HandlerOutcome.response i status' m, ([i] : List Nat)) = (out, sends) →
                  i ≤ w ∧ (∀ j ∈ sends, j ≤ w) ∧
                  (∃ cl2, env.send w = .ok status cl2 ∧ isSuccess status = true) ∧
                  (∀ j ∈ sends, j < w →
                    ∃ s cl2, env.send j = .ok s cl2 ∧ isSuccess s = false) := by
                intro m hp2
                cases hp2
                injection hout with e1 e2 e3
                subst e1
                subst e2
                refine ⟨Nat.le_refl _, ?_, ⟨cl, hsend, hsucc⟩, ?_⟩
                · intro j hj2
                  rw [List.mem_singleton] at hj2
                  exact hj2.le
                · intro j hj2 hlt
                  rw [List.mem_singleton] at hj2
                  exact absurd hlt (by rw [hj2]; exact Nat.lt_irrefl _)
              by_cases he : (!strEndsWith d cacheSuffix) = true
              · rw [if_pos he] at hpair
                rcases hc : cfg.cache with _ | cc
                · rw [hc] at hpair
                  exact key _ hpair
                · rw [hc] at hpair
                  cases cl with
                  | none =>
                    cases hpair
                    exact HandlerOutcome.noConfusion hout
                  | some n =>
                    exact key _ hpair
              · rw [if_neg he] at hpair
                exact key _ hpair
          · have hf : isSuccess status' = false := by
              revert hsucc; cases isSuccess status' <;> simp
            simp only [hf, Bool.not_false, if_true] at hpair
            cases hpair
            obtain ⟨h1, h2, h3, h4⟩ := ih (i + 1) w status mode _ _ rfl hout
            refine ⟨Nat.le_of_succ_le h1, ?_, h3, ?_⟩
            · intro j hj2
              rcases List.mem_cons.mp hj2 with rfl | hmem
              · exact Nat.le_of_succ_le h1
              · exact h2 j hmem
            · intro j hj2 hlt
              rcases List.mem_cons.mp hj2 with rfl | hmem
              · exact ⟨status', cl, hsend, hf⟩
              · exact h4 j hmem hlt

/-! ## Claims -/

/-- Claim C5: when a cache is configured, the candidate list is the
synthesized cache-origin descriptor — URL built from the configured
organization, with the fixed well-known symbol-service scope — followed by
the configured servers in declaration order; with no cache it is exactly
the configured servers. -/
theorem resolver_candidate_order (cfg : Config) :
    (∀ mirror, cfg.cache = some mirror →
      resolveServers cfg =
        { url := { full := "https://artifacts.dev.azure.com/" ++ mirror.organization ++
                     "/_apis/symbol/symsrv/",
                   domain := some "artifacts.dev.azure.com" },
          scope := some "499b84ac-1321-427f-aa17-267ca6975798/.default" } :: cfg.servers) ∧
    (cfg.cache = none → resolveServers cfg = cfg.servers) := by
  constructor
  · intro mirror hm
    simp [resolveServers, hm, mirrorServer, mirrorUrl, wellKnownScope]
  · intro hn
    simp [resolveServers, hn]

/-- A configuration with a cache and one explicit upstream, used to witness
`resolver_candidate_order`. -/
def cfgW5 : Config :=
  { listen_address := none, i_am_not_an_idiot := false,
    cache := some ⟨"C:/tools/symbol.exe", "contoso"⟩,
    servers := [ { url := { full := "https://msdl.microsoft.com/download/symbols/",
                            domain := some "msdl.microsoft.com" },
                   scope := none } ] }

/-- Witness for `resolver_candidate_order` at `cfgW5`. -/
theorem resolver_candidate_order_witness :
    resolveServers cfgW5 =
      { url := { full := "https://artifacts.dev.azure.com/" ++ "contoso" ++
                   "/_apis/symbol/symsrv/",
                 domain := some "artifacts.dev.azure.com" },
        scope := some "499b84ac-1321-427f-aa17-267ca6975798/.default" } :: cfgW5.servers :=
  (resolver_candidate_order cfgW5).1 ⟨"C:/tools/symbol.exe", "contoso"⟩ rfl

/-- Claim C1: in the tee loop, every state observable after any
`write_all` or `tx.send` step has the bytes forwarded towards the client a
prefix of the bytes already written to the staging file — no byte reaches
the hand-off channel before it has been written. -/
theorem tee_client_never_ahead_of_disk (writeOk sendOk : Nat → Bool)
    (chunks : List (Except Unit (List Nat))) (p : List Nat × List Nat)
    (hp : p ∈ teeEvents writeOk sendOk [] [] chunks 0) :
    p.2 <+: p.1 :=
  teeEvents_prefix_aux writeOk sendOk chunks [] 0 p hp

/-- Witness for `tee_client_never_ahead_of_disk` on a two-chunk stream, at
the state between the second write and the second send. -/
theorem tee_client_never_ahead_of_disk_witness :
    ([1, 2], [1]) ∈ teeEvents (fun _ => true) (fun _ => true) [] []
        [.ok [1], .ok [2]] 0 ∧
    ([1] : List Nat) <+: [1, 2] :=
  ⟨by decide,
   tee_client_never_ahead_of_disk (fun _ => true) (fun _ => true)
     [.ok [1], .ok [2]] ([1, 2], [1]) (by decide)⟩

/-- Claim C3: candidates are attempted in fallback order and the first 2xx
wins — when the handler returns the response of the candidate at index
`w`, every outbound request it issued targeted an index at most `w`, the
winner's status is the forwarded 2xx one, and every earlier attempted
candidate had returned a non-2xx status. -/
theorem fallback_first_success_wins (cfg : Config) (env : FetchEnv)
    (w status : Nat) (mode : StreamMode)
    (h : symbolOutcome cfg env = .response w status mode) :
    (∀ j ∈ symbolSends cfg env, j ≤ w) ∧
    (∃ cl, env.send w = .ok status cl ∧ isSuccess status = true) ∧
    (∀ j ∈ symbolSends cfg env, j < w →
      ∃ s cl, env.send j = .ok s cl ∧ isSuccess s = false) := by
  obtain ⟨h1, h2, h3, h4⟩ :=
    symbolLoop_response_facts cfg env (resolveServers cfg) 0 w status mode
      (symbolOutcome cfg env) (symbolSends cfg env) rfl h
  exact ⟨h2, h3, h4⟩

/-- A cached configuration with one explicit upstream, used to witness
handler-loop theorems. -/
def cfgW3 : Config :=
  { listen_address := none, i_am_not_an_idiot := false,
    cache := some ⟨"symbol.exe", "contoso"⟩,
    servers := [ { url := { full := "https://msdl.microsoft.com/download/symbols/",
                            domain := some "msdl.microsoft.com" },
                   scope := none } ] }

/-- An environment in which the synthesized cache-origin candidate returns
404 and the explicit upstream returns 200 with a declared length. -/
def envW3 : FetchEnv :=
  { joinOk := fun _ => true, tokenOk := fun _ => true,
    send := fun i => if i == 0 then .ok 404 none else .ok 200 (some 4) }

/-- Witness for `fallback_first_success_wins`: in `cfgW3`/`envW3` the second
candidate wins with 200 and the facts hold concretely. -/
theorem fallback_first_success_wins_witness :
    symbolOutcome cfgW3 envW3 = .response 1 200 .tee ∧
    ((∀ j ∈ symbolSends cfgW3 envW3, j ≤ 1) ∧
     (∃ cl, envW3.send 1 = .ok 200 cl ∧ isSuccess 200 = true) ∧
     (∀ j ∈ symbolSends cfgW3 envW3, j < 1 →
       ∃ s cl, envW3.send j = .ok s cl ∧ isSuccess s = false)) :=
  ⟨by decide, fallback_first_success_wins cfgW3 envW3 1 200 .tee (by decide)⟩

/-- Claim C8: at any reached candidate, a non-2xx status makes the loop
continue with the remaining candidates, surfacing no error and merely
recording the issued request; a transport failure of `send` aborts the
whole request with the internal error rendered as HTTP 500 and issues no
request to any later candidate. -/
theorem nonsuccess_advances_transport_aborts (cfg : Config) (env : FetchEnv)
    (server : ConfigServer) (rest : List ConfigServer) (i : Nat)
    (hjoin : env.joinOk i = true)
    (htok : ∀ sc, server.scope = some sc → env.tokenOk sc = true) :
    (∀ status cl, env.send i = .ok status cl → isSuccess status = false →
      symbolLoop cfg env (server :: rest) i =
        ((symbolLoop cfg env rest (i + 1)).1,
         i :: (symbolLoop cfg env rest (i + 1)).2)) ∧
    (env.send i = .failed →
      symbolLoop cfg env (server :: rest) i =
        (.internalError "failed to send request", [i]) ∧
      httpStatus (symbolLoop cfg env (server :: rest) i).1 = some 500) := by
  have ht : (match server.scope with
             | some sc => !(env.tokenOk sc)
             | none => false) = false := by
    cases hs : server.scope with
    | none => rfl
    | some sc => simp [htok sc hs]
  constructor
  · intro status cl hsend hns
    rw [symbolLoop]
    simp [hjoin, ht, hsend, hns]
  · intro hsend
    constructor
    · rw [symbolLoop]
      simp [hjoin, ht, hsend]
    · rw [symbolLoop]
      simp [hjoin, ht, hsend, httpStatus]

/-- An unauthenticated upstream with a named host, used in witnesses. -/
def serverW8 : ConfigServer :=
  { url := { full := "https://example.com/sym/", domain := some "example.com" },
    scope := none }

/-- An environment whose every `send` is a transport failure. -/
def envW8 : FetchEnv :=
  { joinOk := fun _ => true, tokenOk := fun _ => true, send := fun _ => .failed }

/-- Witness for `nonsuccess_advances_transport_aborts`: a transport failure
on the only candidate yields the 500 internal error. -/
theorem nonsuccess_advances_transport_aborts_witness :
    symbolLoop cfgW3 envW8 (serverW8 :: []) 0 =
      (.internalError "failed to send request", [0]) ∧
    httpStatus (symbolLoop cfgW3 envW8 (serverW8 :: []) 0).1 = some 500 :=
  (nonsuccess_advances_transport_aborts cfgW3 envW8 serverW8 [] 0 rfl
    (fun _ h => Option.noConfusion h)).2 rfl

/-- The fallback loop never panics when every candidate URL has a named
host. -/
lemma symbolLoop_no_panic (cfg : Config) (env : FetchEnv) :
    ∀ (servers : List ConfigServer) (i : Nat),
      (∀ s ∈ servers, s.url.domain.isSome = true) →
      (symbolLoop cfg env servers i).1 ≠ .panicked := by
  intro servers
  induction servers with
  | nil =>
    intro i hall
    rw [symbolLoop]
    simp
  | cons server rest ih =>
    intro i hall
    rw [symbolLoop]
    by_cases hj : env.joinOk i = false
    · simp [hj]
    · rw [if_neg hj]
      by_cases ht : (match server.scope with
                     | some sc => !(env.tokenOk sc)
                     | none => false) = true
      · rw [if_pos ht]
        simp
      · rw [if_neg ht]
        cases hsend : env.send i with
        | failed => simp [hsend]
        | ok status cl =>
          simp only [hsend]
          by_cases hsucc : isSuccess status = true
          · simp only [hsucc, Bool.not_true, Bool.false_eq_true, if_false]
            cases hdom : server.url.domain with
            | none =>
              have hmem := hall server (List.mem_cons_self server rest)
              rw [hdom] at hmem
              simp at hmem
            | some d =>
              simp only [hdom]
              by_cases he : (!strEndsWith d cacheSuffix) = true
              · rw [if_pos he]
                rcases hc : cfg.cache with _ | cc
                · simp
                · cases cl <;> simp
              · rw [if_neg he]
                simp
          · have hf : isSuccess status = false := by
              revert hsucc; cases isSuccess status <;> simp
            simp only [hf, Bool.not_false, if_true]
            exact ih (i + 1) (fun s hs => hall s (List.mem_cons_of_mem _ hs))

/-- Claim C10: a winning candidate whose base URL has no domain component
(an IP-literal host, say) drives the handler into the
`server.url.domain().unwrap()` panic instead of any response; and the
handler avoids the panic exactly under the precondition that every
candidate URL has a named host. -/
theorem domain_unwrap_panics (cfg : Config) (env : FetchEnv) :
    (∀ (server : ConfigServer) (rest : List ConfigServer) (i status : Nat)
        (cl : Option Nat),
      env.joinOk i = true →
      (∀ sc, server.scope = some sc → env.tokenOk sc = true) →
      env.send i = .ok status cl → isSuccess status = true →
      server.url.domain = none →
      (symbolLoop cfg env (server :: rest) i).1 = .panicked) ∧
    ((∀ s ∈ resolveServers cfg, s.url.domain.isSome = true) →
      symbolOutcome cfg env ≠ .panicked) := by
  constructor
  · intro server rest i status cl hjoin htok hsend hsucc hdom
    have ht : (match server.scope with
               | some sc => !(env.tokenOk sc)
               | none => false) = false := by
      cases hs : server.scope with
      | none => rfl
      | some sc => simp [htok sc hs]
    rw [symbolLoop]
    simp [hjoin, ht, hsend, hsucc, hdom]
  · intro hall
    exact symbolLoop_no_panic cfg env (resolveServers cfg) 0 hall

/-- An upstream whose base URL host is an IP-address literal, so
`Url::domain()` is `None`. -/
def serverW10 : ConfigServer :=
  { url := { full := "http://127.0.0.1:8000/sym/", domain := none }, scope := none }

/-- An environment whose every `send` returns 200 with a declared length. -/
def envW10 : FetchEnv :=
  { joinOk := fun _ => true, tokenOk := fun _ => true,
    send := fun _ => .ok 200 (some 4) }

/-- Witness for `domain_unwrap_panics`: a 2xx from the IP-literal upstream
panics the handler. -/
theorem domain_unwrap_panics_witness :
    (symbolLoop cfgW3 envW10 (serverW10 :: []) 0).1 = .panicked :=
  (domain_unwrap_panics cfgW3 envW10).1 serverW10 [] 0 200 (some 4) rfl
    (fun _ h => Option.noConfusion h) rfl (by decide) rfl

/-- When the fallback loop, started at index `i`, wins at index `w`, the
winning server sits at position `w - i` of the candidate list, its URL has
a named domain, and the body is teed exactly when a cache is configured
and that domain does not end with the Azure DevOps artifacts suffix. -/
lemma symbolLoop_winner_mode (cfg : Config) (env : FetchEnv) :
    ∀ (servers : List ConfigServer) (i w status : Nat) (mode : StreamMode),
      (symbolLoop cfg env servers i).1 = .response w status mode →
      ∃ server d, servers.get? (w - i) = some server ∧
        server.url.domain = some d ∧
        (mode = .tee ↔ cfg.cache.isSome = true ∧ strEndsWith d cacheSuffix = false) := by
  intro servers
  induction servers with
  | nil =>
    intro i w status mode h
    rw [symbolLoop] at h
    exact HandlerOutcome.noConfusion h
  | cons server rest ih =>
    intro i w status mode h
    rw [symbolLoop] at h
    by_cases hj : env.joinOk i = false
    · rw [if_pos hj] at h
      exact HandlerOutcome.noConfusion h
    · rw [if_neg hj] at h
      by_cases ht : (match server.scope with
                     | some sc => !(env.tokenOk sc)
                     | none => false) = true
      · rw [if_pos ht] at h
        exact HandlerOutcome.noConfusion h
      · rw [if_neg ht] at h
        cases hsend : env.send i with
        | failed =>
          simp only [hsend] at h
          exact HandlerOutcome.noConfusion h
        | ok status' cl =>
          simp only [hsend] at h
          by_cases hsucc : isSuccess status' = true
          · simp only [hsucc, Bool.not_true, Bool.false_eq_true, if_false] at h
            cases hdom : server.url.domain with
            | none =>
              simp only [hdom] at h
              exact HandlerOutcome.noConfusion h
            | some d =>
              simp only [hdom] at h
              by_cases he : (!strEndsWith d cacheSuffix) = true
              · rw [if_pos he] at h
                have hef : strEndsWith d cacheSuffix = false := by
                  revert he; cases strEndsWith d cacheSuffix <;> simp
                rcases hc : cfg.cache with _ | cc
                · rw [hc] at h
                  injection h with e1 e2 e3
                  subst e1
                  refine ⟨server, d, ?_, hdom, ?_⟩
                  · simp
                  · rw [← e3]
                    simp [hc]
                · rw [hc] at h
                  cases cl with
                  | none =>
                    exact HandlerOutcome.noConfusion h
                  | some n =>
                    injection h with e1 e2 e3
                    subst e1
                    refine ⟨server, d, ?_, hdom, ?_⟩
                    · simp
                    · rw [← e3]
                      simp [hc, hef]
              · rw [if_neg he] at h
                have het : strEndsWith d cacheSuffix = true := by
                  revert he; cases strEndsWith d cacheSuffix <;> simp
                injection h with e1 e2 e3
                subst e1
                refine ⟨server, d, ?_, hdom, ?_⟩
                · simp
                · rw [← e3]
                  simp [het]
          · have hf : isSuccess status' = false := by
              revert hsucc; cases isSuccess status' <;> simp
            simp only [hf, Bool.not_false, if_true] at h
            obtain ⟨hle, _, _, _⟩ :=
              symbolLoop_response_facts cfg env rest (i + 1) w status mode _ _ rfl h
            obtain ⟨server2, d2, hget, hdom2, hiff⟩ := ih (i + 1) w status mode h
            refine ⟨server2, d2, ?_, hdom2, hiff⟩
            have hWi : w - i = (w - (i + 1)) + 1 := by omega
            rw [hWi]
            simpa using hget

/-- An explicitly configured upstream that is hosted on an Azure DevOps
artifacts domain without being the synthesized cache-origin descriptor. -/
def azServer : ConfigServer :=
  { url := { full := "https://eu.artifacts.dev.azure.com/xyz/_apis/symbol/symsrv/",
             domain := some "eu.artifacts.dev.azure.com" },
    scope := none }

/-- A cached configuration whose only explicit upstream is `azServer`. -/
def cfgC4 : Config :=
  { listen_address := none, i_am_not_an_idiot := false,
    cache := some ⟨"symbol.exe", "contoso"⟩,
    servers := [azServer] }

/-- Counterexample to claim C4: with caching configured, the explicitly
configured `azServer` — distinct from the synthesized cache-origin
descriptor — wins with 200 and is passed straight through, not teed,
because its URL domain merely ends with the Azure DevOps suffix. -/
theorem cache_decision_counterexample :
    cfgC4.cache.isSome = true ∧
    azServer ∈ cfgC4.servers ∧
    azServer ≠ mirrorServer "contoso" ∧
    (resolveServers cfgC4).get? 1 = some azServer ∧
    symbolOutcome cfgC4 envW3 = .response 1 200 .passthrough := by
  refine ⟨rfl, ?_, ?_, rfl, ?_⟩
  · decide
  · decide
  · decide

/-- Claim C4 (amended): for a winning 2xx response, the choice between
passthrough and tee-and-publish depends solely on whether caching is
configured and whether the winning server's URL domain ends with
`"artifacts.dev.azure.com"` — not on whether the server is the synthesized
cache-origin descriptor; an explicit upstream whose domain carries that
suffix is passed through even with caching configured. -/
theorem cache_decision_by_domain (cfg : Config) (env : FetchEnv)
    (w status : Nat) (mode : StreamMode) (server : ConfigServer) (d : String)
    (h : symbolOutcome cfg env = .response w status mode)
    (hs : (resolveServers cfg).get? w = some server)
    (hd : server.url.domain = some d) :
    mode = .tee ↔ cfg.cache.isSome = true ∧ strEndsWith d cacheSuffix = false := by
  obtain ⟨server2, d2, hget, hdom2, hiff⟩ :=
    symbolLoop_winner_mode cfg env (resolveServers cfg) 0 w status mode h
  rw [Nat.sub_zero] at hget
  rw [hs] at hget
  injection hget with he
  subst he
  rw [hd] at hdom2
  injection hdom2 with he2
  subst he2
  exact hiff

/-- Witness for `cache_decision_by_domain` at `cfgW3`/`envW3`, whose winner
is the explicit upstream on `msdl.microsoft.com`. -/
theorem cache_decision_by_domain_witness :
    (StreamMode.tee = StreamMode.tee ↔
      cfgW3.cache.isSome = true ∧
      strEndsWith "msdl.microsoft.com" cacheSuffix = false) :=
  cache_decision_by_domain cfgW3 envW3 1 200 .tee
    { url := { full := "https://msdl.microsoft.com/download/symbols/",
               domain := some "msdl.microsoft.com" },
      scope := none }
    "msdl.microsoft.com" (by decide) (by decide) rfl

/-- A task environment whose upstream stream ends after 2 bytes although 4
bytes were declared, with every operation succeeding. -/
def envC2 : TaskEnv :=
  { byteCount := 4, chunks := [.ok [1, 2]], createDirOk := true, openOk := true,
    setLenOk := true, writeOk := fun _ => true, sendOk := fun _ => true,
    invoke := some 0, removeOk := true }

/-- Counterexample to claim C2: the upstream stream of `envC2` ends short —
2 bytes written against a declared content length of 4 — yet the task
still invokes the publisher and completes successfully; no comparison of
written bytes against the declared length exists in the loop. -/
theorem truncated_stream_still_published :
    (teeTask envC2).publisherInvoked = true ∧
    (teeTask envC2).written.length = 2 ∧
    envC2.byteCount = 4 ∧
    (teeTask envC2).result = .ok () := by decide

/-- Claim C2 (amended): the publisher is invoked exactly when the staging
setup succeeds and every chunk of the stream is read, written and
forwarded without error — in particular a stream error prevents
publication — but the bytes written are never compared against the
declared content length, so a stream that ends short without an error is
still published. -/
theorem publish_iff_tee_loop_clean (env : TaskEnv) :
    (teeTask env).publisherInvoked = true ↔
      env.createDirOk = true ∧ env.openOk = true ∧ env.setLenOk = true ∧
      (teeLoop env.writeOk env.sendOk [] [] env.chunks 0).2.2 = none := by
  unfold teeTask
  by_cases h1 : env.createDirOk = false
  · simp [h1]
  · have h1t : env.createDirOk = true := by
      revert h1; cases env.createDirOk <;> simp
    rw [if_neg h1]
    by_cases h2 : env.openOk = false
    · simp [h2, h1t]
    · have h2t : env.openOk = true := by
        revert h2; cases env.openOk <;> simp
      rw [if_neg h2]
      by_cases h3 : env.setLenOk = false
      · simp [h3, h2t, h1t]
      · have h3t : env.setLenOk = true := by
          revert h3; cases env.setLenOk <;> simp
        rw [if_neg h3]
        rcases hl : teeLoop env.writeOk env.sendOk [] [] env.chunks 0 with ⟨w, s, err⟩
        cases err with
        | some e =>
          simp [teeFinish, h1t, h2t, h3t]
        | none =>
          rcases hi : env.invoke with _ | code
          · simp [teeFinish, hi, h1t, h2t, h3t]
          · by_cases hr : env.removeOk = false
            · simp [teeFinish, hi, hr, h1t, h2t, h3t]
            · simp [teeFinish, hi, hr, h1t, h2t, h3t]

/-- A task environment in which `symbol.exe` cannot be spawned. -/
def envC6 : TaskEnv :=
  { byteCount := 1, chunks := [.ok [7]], createDirOk := true, openOk := true,
    setLenOk := true, writeOk := fun _ => true, sendOk := fun _ => true,
    invoke := none, removeOk := true }

/-- Counterexample to claim C6: the task of `envC6` reaches the publish
step, the external tool cannot be invoked, and the staging directory is
then never removed — the `?` on the `Command::status` call aborts the task
before `remove_dir_all`. -/
theorem staging_leak_on_spawn_failure :
    (teeTask envC6).publisherInvoked = true ∧
    (teeTask envC6).removeAttempted = false ∧
    (teeTask envC6).dirRemoved = false ∧
    (teeTask envC6).result = .error "failed to run symbol.exe" := by decide

/-- Claim C6 (amended): for every task that reaches the publish step, the
staging-directory removal is attempted exactly when the external tool was
successfully invoked — regardless of its exit code, which is never
inspected; when the tool cannot be invoked at all the task aborts first
and the staging directory leaks. -/
theorem staging_removed_iff_spawn_ok (env : TaskEnv)
    (hinv : (teeTask env).publisherInvoked = true) :
    (teeTask env).removeAttempted = env.invoke.isSome := by
  unfold teeTask at hinv ⊢
  by_cases h1 : env.createDirOk = false
  · simp [h1] at hinv
  · rw [if_neg h1] at hinv ⊢
    by_cases h2 : env.openOk = false
    · simp [h2] at hinv
    · rw [if_neg h2] at hinv ⊢
      by_cases h3 : env.setLenOk = false
      · simp [h3] at hinv
      · rw [if_neg h3] at hinv ⊢
        rcases hl : teeLoop env.writeOk env.sendOk [] [] env.chunks 0 with ⟨w, s, err⟩
        cases err with
        | some e =>
          rw [hl] at hinv
          simp [teeFinish] at hinv
        | none =>
          rcases hi : env.invoke with _ | code
          · simp [teeFinish, hi]
          · by_cases hr : env.removeOk = false
            · simp [teeFinish, hi, hr]
            · simp [teeFinish, hi, hr]

/-- Witness for `staging_removed_iff_spawn_ok`: with a successfully
invoked tool that exits non-zero, removal is still attempted. -/
def envW6 : TaskEnv :=
  { byteCount := 1, chunks := [.ok [7]], createDirOk := true, openOk := true,
    setLenOk := true, writeOk := fun _ => true, sendOk := fun _ => true,
    invoke := some 1, removeOk := true }

/-- Witness for `staging_removed_iff_spawn_ok` at `envW6`, whose tool
exits with code 1. -/
theorem staging_removed_iff_spawn_ok_witness :
    (teeTask envW6).removeAttempted = envW6.invoke.isSome :=
  staging_removed_iff_spawn_ok envW6 (by decide)

/-- A task environment whose hand-off channel receiver is dropped after
the first chunk is forwarded, while a second chunk is still inbound. -/
def envC7 : TaskEnv :=
  { byteCount := 2, chunks := [.ok [1], .ok [2]], createDirOk := true, openOk := true,
    setLenOk := true, writeOk := fun _ => true, sendOk := fun k => k == 0,
    invoke := some 0, removeOk := true }

/-- Counterexample to claim C7: in `envC7` the client disconnects after
one chunk; the second chunk is written to the staging file but its
`tx.send` fails, the task aborts with the send error, and the publisher is
never invoked — disconnection does cancel publication. -/
theorem disconnect_cancels_publish :
    (teeTask envC7).written = [1, 2] ∧
    (teeTask envC7).sent = [1] ∧
    (teeTask envC7).publisherInvoked = false ∧
    (teeTask envC7).result = .error "failed to send chunk" := by decide

/-- Once the channel receiver is gone — every send from index `n` on fails
— a loop over an all-readable stream with more than `n` chunks left always
ends in an error. -/
lemma teeLoop_send_fail (writeOk sendOk : Nat → Bool) :
    ∀ (chunks : List (Except Unit (List Nat))) (w s : List Nat) (k n : Nat),
      (∀ j, n ≤ j → sendOk j = false) →
      (∀ j, writeOk j = true) →
      (∀ c ∈ chunks, ∃ b, c = Except.ok b) →
      k ≤ n → n < k + chunks.length →
      (teeLoop writeOk sendOk w s chunks k).2.2.isSome = true := by
  intro chunks
  induction chunks with
  | nil =>
    intro w s k n hdrop hw hok hk hlt
    simp at hlt
    omega
  | cons c rest ih =>
    intro w s k n hdrop hw hok hk hlt
    obtain ⟨b, rfl⟩ := hok c (List.mem_cons_self c rest)
    rw [teeLoop]
    rw [hw k]
    simp only [Bool.true_eq_false, if_false]
    by_cases hs : sendOk k = false
    · simp [hs]
    · have hkn : k < n := by
        rcases Nat.lt_or_ge k n with h | h
        · exact h
        · exact absurd (hdrop k h) hs
      rw [if_neg hs]
      exact ih (w ++ b) (s ++ b) (k + 1) n hdrop hw
        (fun c2 hc2 => hok c2 (List.mem_cons_of_mem _ hc2)) hkn
        (by simp at hlt ⊢; omega)

/-- Claim C7 (amended): when the client disconnects — the channel receiver
is dropped, so every send from some index `n` on fails — while the
all-readable upstream stream still has more than `n` chunks, the tee task
aborts without ever invoking the publisher: client disconnection cancels
publication of the bytes already written. -/
theorem client_disconnect_blocks_publish (env : TaskEnv) (n : Nat)
    (hdrop : ∀ j, n ≤ j → env.sendOk j = false)
    (hw : ∀ j, env.writeOk j = true)
    (hok : ∀ c ∈ env.chunks, ∃ b, c = Except.ok b)
    (hlen : n < env.chunks.length) :
    (teeTask env).publisherInvoked = false := by
  unfold teeTask
  by_cases h1 : env.createDirOk = false
  · simp [h1]
  · rw [if_neg h1]
    by_cases h2 : env.openOk = false
    · simp [h2]
    · rw [if_neg h2]
      by_cases h3 : env.setLenOk = false
      · simp [h3]
      · rw [if_neg h3]
        have herr := teeLoop_send_fail env.writeOk env.sendOk env.chunks [] [] 0 n
          hdrop hw hok (Nat.zero_le n) (by simpa using hlen)
        rcases hl : teeLoop env.writeOk env.sendOk [] [] env.chunks 0 with ⟨w, s, err⟩
        rw [hl] at herr
        cases err with
        | none => simp at herr
        | some e => simp [teeFinish]

/-- A task environment whose receiver is dropped before any send. -/
def envW7 : TaskEnv :=
  { byteCount := 3, chunks := [.ok [5]], createDirOk := true, openOk := true,
    setLenOk := true, writeOk := fun _ => true, sendOk := fun _ => false,
    invoke := some 0, removeOk := true }

/-- Witness for `client_disconnect_blocks_publish` at `envW7`. -/
theorem client_disconnect_blocks_publish_witness :
    (teeTask envW7).publisherInvoked = false :=
  client_disconnect_blocks_publish envW7 0
    (fun _ _ => rfl) (fun _ => rfl)
    (by
      intro c hc
      simp only [envW7, List.mem_singleton] at hc
      exact ⟨[5], hc⟩)
    (by decide)

/-- A configuration whose only authentication-requiring upstream is the
implicit cache-origin one, bound to a routable address with the override
flag off. -/
def cfgC9 : Config :=
  { listen_address := some ⟨(10, 0, 0, 1), 5000⟩, i_am_not_an_idiot := false,
    cache := some ⟨"symbol.exe", "contoso"⟩,
    servers := [ { url := { full := "https://example.com/sym/",
                            domain := some "example.com" },
                   scope := none } ] }

/-- Counterexample to claim C9: in `cfgC9` the candidate list contains an
auth-requiring upstream (the synthesized cache-origin one), the bind
address `10.0.0.1` is not loopback and the override flag is false, yet
startup proceeds to bind — the `has_auth` check ranges over the configured
servers only. -/
theorem startup_ignores_cache_origin_auth :
    startup cfgC9 (fun _ => true) = .bound ⟨(10, 0, 0, 1), 5000⟩ ∧
    cfgC9.cache.isSome = true ∧
    (resolveServers cfgC9).any (fun s => s.scope.isSome) = true ∧
    cfgC9.i_am_not_an_idiot = false ∧
    SocketAddr.ipIsLoopback ⟨(10, 0, 0, 1), 5000⟩ = false := by decide

/-- Claim C9 (amended): once the startup token prefetch succeeds, the
process refuses to start — before binding — exactly when some explicitly
configured server carries an authentication scope, the override flag is
false, and the resolved bind address is not loopback; the authentication
scope of the synthesized cache-origin upstream is not consulted, so a
configuration whose only authenticated upstream is the cache origin starts
even on a routable address. -/
theorem startup_refusal_explicit_servers_only (cfg : Config) (tokenOk : String → Bool)
    (htok : ∀ s ∈ cfg.servers, ∀ sc, s.scope = some sc → tokenOk sc = true) :
    startup cfg tokenOk = .refusedInsecure ↔
      cfg.servers.any (fun s => s.scope.isSome) = true ∧
      cfg.i_am_not_an_idiot = false ∧
      (cfg.listen_address.getD defaultListen).ipIsLoopback = false := by
  unfold startup
  have hpre : (cfg.servers.any (fun s =>
      match s.scope with
      | some sc => !(tokenOk sc)
      | none => false)) = false := by
    rw [List.any_eq_false]
    intro s hs
    cases hsc : s.scope with
    | none => simp
    | some sc => simp [htok s hs sc hsc]
  rw [hpre]
  simp only [Bool.false_eq_true, if_false]
  by_cases hc : (cfg.servers.any (fun s => s.scope.isSome) &&
      !cfg.i_am_not_an_idiot &&
      !(cfg.listen_address.getD defaultListen).ipIsLoopback) = true
  · rw [if_pos hc]
    simp only [Bool.and_eq_true, Bool.not_eq_true'] at hc
    simp [hc.1.1, hc.1.2, hc.2]
  · rw [if_neg hc]
    constructor
    · intro h
      exact StartupResult.noConfusion h
    · rintro ⟨ha, hb, hc2⟩
      exact absurd (by rw [ha, hb, hc2]; rfl) hc

/-- A configuration with one explicitly authenticated server on a routable
bind address and the override flag off. -/
def cfgW9 : Config :=
  { listen_address := some ⟨(10, 0, 0, 1), 5000⟩, i_am_not_an_idiot := false,
    cache := none,
    servers := [ { url := { full := "https://example.com/sym/",
                            domain := some "example.com" },
                   scope := some "scopeA" } ] }

/-- Witness for `startup_refusal_explicit_servers_only` at `cfgW9`. -/
theorem startup_refusal_explicit_servers_only_witness :
    startup cfgW9 (fun _ => true) = .refusedInsecure ↔
      cfgW9.servers.any (fun s => s.scope.isSome) = true ∧
      cfgW9.i_am_not_an_idiot = false ∧
      (cfgW9.listen_address.getD defaultListen).ipIsLoopback = false :=
  startup_refusal_explicit_servers_only cfgW9 (fun _ => true)
    (fun _ _ _ _ => rfl)

end SymProxy
